import Mathlib

/-!
Verification of the aisa-serverless handlers.

Shallow embedding of the four serverless handlers of the repository:

* `guardarHandler`   — pages/api/guardar_resultado.js (save an exam result)
* `obtenerHandler`   — pages/api/obtener_resultado.js (retrieve a result by id)
* `directHandler`    — the direct-image exam generator (Gemini, no cleanup)
* `multiHandler`     — pages/api/generar_examen.js, multi-file variant with
                       a finally block that unlinks the uploaded temp files
* `ocrHandler`       — pages/api/generar_examen.js, OCR (Cloud Vision) variant

JavaScript values appearing in request bodies are modelled by `JSValue`
with JS truthiness (`truthy`).  External effects (file reads, OCR calls,
generation calls, unlinks) are recorded in an ordered trace of `ExtCall`s.
The MongoDB collection is a list of `Documento`s with a uniqueness
constraint on `uniqueId` enforced at insertion.
-/

/-- A JavaScript value, as far as the handlers inspect one.  `undef` stands
for JavaScript `undefined` (e.g. a field absent from `req.body`). -/
inductive JSValue where
  | null : JSValue
  | undef : JSValue
  | bool : Bool → JSValue
  | num : Int → JSValue
  | str : String → JSValue
  | arr : List JSValue → JSValue
  | obj : List (String × JSValue) → JSValue
  deriving Repr

/-- JavaScript truthiness: `null`, `undefined`, `false`, `0` and `""` are
falsy; objects and arrays are always truthy. -/
def JSValue.truthy : JSValue → Bool
  | .null => false
  | .undef => false
  | .bool b => b
  | .num n => n != 0
  | .str s => s != ""
  | .arr _ => true
  | .obj _ => true

/-- Property access on a JS object literal: `body[k]`, giving `undefined`
when the key is absent (first binding wins, as in an object literal built
from distinct keys). -/
def getField (body : List (String × JSValue)) (k : String) : JSValue :=
  match body.find? (fun p => p.1 == k) with
  | some p => p.2
  | none => JSValue.undef

/-- A field is present and non-null (the spec wording for the save
validation): not absent (`undefined`) and not `null`. -/
def presentNonNull (v : JSValue) : Prop := v ≠ JSValue.null ∧ v ≠ JSValue.undef

/-! ### The id generator

`generateUniqueId = () => 'R_' + Math.random().toString(36).substring(2, 8).toUpperCase()`

`Math.random()` returns a double in `[0,1)`.  We represent its base-36
fractional expansion as a finite list of digits `< 36` with no trailing
zero digit, so that `toString(36)` renders `"0"` for the empty list and
`"0." ++ digits` otherwise — exactly the strings V8 produces (`(0.5).toString(36)
= "0.i"`).  `fracValue` recovers the numeric value of an expansion. -/

/-- The base-36 digit characters used by `Number.prototype.toString(36)`:
`0-9` then `a-z`. -/
def base36Char (d : Nat) : Char :=
  if d < 10 then Char.ofNat (48 + d) else Char.ofNat (97 + (d - 10))

/-- Rendering of a double in `[0,1)` by `toString(36)`, from the base-36
fractional digit expansion: `"0"` when the value is `0`, else `"0."`
followed by the digits. -/
def toString36Frac (digits : List Nat) : String :=
  if digits.isEmpty then "0" else "0." ++ String.mk (digits.map base36Char)

/-- The numeric value represented by a base-36 fractional expansion. -/
def fracValue (digits : List Nat) : ℚ :=
  (digits.foldr (fun d acc => (d + acc) / 36) 0 : ℚ)

/-- JavaScript `String.prototype.substring(a, b)` (character indices,
clamped at the end of the string). -/
def jsSubstring (s : String) (a b : Nat) : String :=
  String.mk ((s.toList.drop a).take (b - a))

/-- JavaScript `String.prototype.toUpperCase` on the ASCII strings at hand. -/
def jsToUpper (s : String) : String :=
  String.mk (s.toList.map Char.toUpper)

/-- The id generator of guardar_resultado.js, as a function of the base-36
fractional expansion of the `Math.random()` result. -/
def generateUniqueId (digits : List Nat) : String :=
  "R_" ++ jsToUpper (jsSubstring (toString36Frac digits) 2 8)

/-- A character is an uppercase base-36 character, i.e. matches `[A-Z0-9]`. -/
def isUpperBase36 (c : Char) : Prop :=
  ('A' ≤ c ∧ c ≤ 'Z') ∨ ('0' ≤ c ∧ c ≤ '9')

instance (c : Char) : Decidable (isUpperBase36 c) := by
  unfold isUpperBase36; infer_instance

/-- The spec pattern `R_[A-Z0-9]{6}`: the literal `R_` followed by exactly
six uppercase base-36 characters. -/
def matchesIdPattern (s : String) : Prop :=
  s.toList.take 2 = ['R', '_'] ∧ (s.toList.drop 2).length = 6 ∧
    ∀ c ∈ s.toList.drop 2, isUpperBase36 c

instance (s : String) : Decidable (matchesIdPattern s) := by
  unfold matchesIdPattern; infer_instance

/-! ### The Result Store: guardar_resultado.js and obtener_resultado.js -/

/-- A stored exam-result document (the `Resultado` Mongoose model).
`timestamp` defaults to the creation time; the payload fields are stored
after the `ResultadoSchema` casts (`respuestas`, declared `Object` i.e.
Mixed, verbatim). -/
structure Documento where
  uniqueId : String
  timestamp : Nat
  puntuacion : JSValue
  respuestas : JSValue
  totalPreguntas : JSValue
  examen : JSValue
  deriving Repr

/-- Responses of the save handler, one constructor per distinct response
of guardar_resultado.js. -/
inductive SaveResponse where
  | methodNotAllowed : SaveResponse
  | missingFields : SaveResponse
  | created : String → SaveResponse
  | serverError : SaveResponse
  deriving Repr, DecidableEq

/-- HTTP status of each save-handler response. -/
def SaveResponse.status : SaveResponse → Nat
  | .methodNotAllowed => 405
  | .missingFields => 400
  | .created _ => 201
  | .serverError => 500

/-- Decimal-digit reading used by `jsStringToNumber`: `none` when the
character list is empty or contains a non-digit. -/
def digitsToNat (ds : List Char) : Option Nat :=
  if ds.isEmpty then none
  else ds.foldl
    (fun acc c => acc.bind
      (fun n => if c.isDigit then some (10 * n + (c.toNat - 48)) else none))
    (some 0)

/-- The JS `Number(...)` conversion on the strings this integer-valued
model represents: an optional minus sign followed by decimal digits;
every other string is `NaN`, rendered as `none`. -/
def jsStringToNumber (s : String) : Option Int :=
  match s.toList with
  | '-' :: ds => (digitsToNat ds).map (fun n => -(n : Int))
  | ds => (digitsToNat ds).map (fun n => (n : Int))

/-- Mongoose cast to the schema type `Number` declared for `puntuacion`
and `totalPreguntas`, on the values `JSValue` models (JS numbers are
modelled as integers, so numeric strings are the integer-literal ones).
Numbers pass through; strings and booleans go through `Number(...)`, a
non-numeric string being `NaN`, which fails; arrays and plain objects
throw a `CastError` at `save()`.  `null`/`undefined` would fail the
schema's `required` validation at `save()` instead, so `none` gives the
same 500 outcome (both are unreachable behind the handler's truthiness
check). -/
def castNumber : JSValue → Option Int
  | .num n => some n
  | .str s => jsStringToNumber s
  | .bool b => some (if b then 1 else 0)
  | _ => none

/-- Mongoose cast to the schema type `Array` (of Mixed) declared for
`examen`: an array passes through element-wise unchanged; a non-array
value is wrapped into a one-element array. -/
def castArray : JSValue → JSValue
  | .arr l => .arr l
  | v => .arr [v]

/-- The save handler of guardar_resultado.js.  `connectOk` is the outcome
of `connectToDatabase` (a failure there throws and is caught, giving the
500 response); `digits` is the base-36 expansion of the `Math.random()`
draw; `now` the creation time; `state` the collection.  Building the
`Resultado` document casts the fields to the `ResultadoSchema` types —
`puntuacion`/`totalPreguntas` to Number, `examen` to Array, `respuestas`
declared `Object` (Mixed) stored verbatim — and a failing cast makes
`save()` throw, answered 500 by the catch block.  Insertion with a
`uniqueId` already present violates the unique index, `save()` throws,
and the catch block answers 500 leaving the collection unchanged. -/
def guardarHandler (method : String) (body : List (String × JSValue))
    (connectOk : Bool) (digits : List Nat) (now : Nat)
    (state : List Documento) : SaveResponse × List Documento :=
  if method != "POST" then (.methodNotAllowed, state)
  else if !connectOk then (.serverError, state)
  else if !(getField body "puntuacion").truthy
      || !(getField body "respuestas").truthy
      || !(getField body "totalPreguntas").truthy
      || !(getField body "examen").truthy then
    (.missingFields, state)
  else
    match castNumber (getField body "puntuacion"),
        castNumber (getField body "totalPreguntas") with
    | some p, some t =>
      if state.any (fun d => d.uniqueId == generateUniqueId digits) then
        (.serverError, state)
      else
        (.created (generateUniqueId digits),
          state ++ [⟨generateUniqueId digits, now,
            JSValue.num p, getField body "respuestas",
            JSValue.num t, castArray (getField body "examen")⟩])
    | _, _ => (.serverError, state)

/-- Responses of the get handler, one constructor per distinct response
of obtener_resultado.js. -/
inductive GetResponse where
  | methodNotAllowed : GetResponse
  | missingParam : GetResponse
  | notFound : GetResponse
  | found : Documento → GetResponse
  | serverError : GetResponse
  deriving Repr

/-- HTTP status of each get-handler response. -/
def GetResponse.status : GetResponse → Nat
  | .methodNotAllowed => 405
  | .missingParam => 400
  | .notFound => 404
  | .found _ => 200
  | .serverError => 500

/-- The get handler of obtener_resultado.js.  `shareId` is the query
parameter (`none` when absent; the handler's `!shareId` check also
rejects the empty string).  A database failure is caught and answered
with 500.  `findOne` returns the first document whose `uniqueId` equals
the share id, and the whole (lean) document is returned. -/
def obtenerHandler (method : String) (shareId : Option String)
    (connectOk : Bool) (state : List Documento) : GetResponse :=
  if method != "GET" then .methodNotAllowed
  else
    let sid := shareId.getD ""
    if sid == "" then .missingParam
    else if !connectOk then .serverError
    else
      match state.find? (fun d => d.uniqueId == sid) with
      | none => .notFound
      | some d => .found d

/-! ### The connection singleton

`connectToDatabase` checks `mongoose.connections[0].readyState` (0 when
disconnected, nonzero once a connection is live) and only calls
`mongoose.connect` when it is 0. -/

/-- One call to `connectToDatabase`: from the current `readyState` and
whether a fresh `mongoose.connect` would succeed, the new `readyState`
and whether a connection attempt was made. -/
def connectToDatabase (readyState : Nat) (connectSucceeds : Bool) :
    Nat × Bool :=
  if readyState != 0 then (readyState, false)
  else if connectSucceeds then (1, true) else (0, true)

/-- Number of connections actually established by a sequence of
`connectToDatabase` calls starting from `readyState`, given the outcome
each attempt would have. -/
def connectionsEstablished (readyState : Nat) : List Bool → Nat
  | [] => 0
  | o :: rest =>
    let step := connectToDatabase readyState o
    (if step.2 && o then 1 else 0) + connectionsEstablished step.1 rest

/-! ### The exam-generation handlers

Each handler is modelled as a pure function from the parsed request and
the outcomes of the external calls to the response together with an
ordered trace of the external effects it performs. -/

/-- A file stored by formidable in the temp directory. -/
structure UploadedFile where
  filepath : String
  mimetype : String
  deriving Repr, DecidableEq

/-- The `files.files` (resp. `files.file`) field produced by formidable:
absent, a single file object, or an array of file objects. -/
inductive FilesField where
  | missing : FilesField
  | single : UploadedFile → FilesField
  | array : List UploadedFile → FilesField
  deriving Repr, DecidableEq

/-- An external effect of a generation handler. -/
inductive ExtCall where
  | readFile : String → ExtCall
  | ocr : String → ExtCall
  | generate : ExtCall
  | unlink : String → ExtCall
  deriving Repr, DecidableEq

/-- Outcome of the `ai.models.generateContent` call: the call throws, or
it returns text that either fails or succeeds to `JSON.parse`. -/
inductive GenOutcome where
  | callError : GenOutcome
  | returns : Option JSValue → GenOutcome

/-- Outcome of the Cloud Vision `documentTextDetection` call: the call
throws, or it returns with `result.fullTextAnnotation?.text` being the
given optional string. -/
inductive OcrOutcome where
  | callError : OcrOutcome
  | extracted : Option String → OcrOutcome

/-- Responses of the generation handlers, one constructor per distinct
response shape across the three variants. -/
inductive GenResponse where
  | optionsOk : GenResponse
  | methodNotAllowed : GenResponse
  | noFile : GenResponse
  | ocrInsufficient : GenResponse
  | invalidFormat : GenResponse
  | providerError : GenResponse
  | success : JSValue → GenResponse
  deriving Repr

/-- HTTP status of each generation-handler response.  `noFile` is the 400
"no material" answer; `ocrInsufficient` is the 500 OCR-minimum answer of
the OCR variant; `invalidFormat` the direct variant's dedicated 500 for
unparseable model output; `providerError` the catch-all 500. -/
def GenResponse.status : GenResponse → Nat
  | .optionsOk => 200
  | .methodNotAllowed => 405
  | .noFile => 400
  | .ocrInsufficient => 500
  | .invalidFormat => 500
  | .providerError => 500
  | .success _ => 200

/-- Normalization of `files.files` in the direct-image handler:
`const fileList = files.files || []` then
`Array.isArray(fileList) ? fileList : [fileList]`. -/
def normalizeDirect : FilesField → List UploadedFile
  | .missing => []
  | .single f => [f]
  | .array fs => fs

/-- Normalization of `files.files` in the multi-file handler:
`Array.isArray(files.files) ? files.files : [files.files]` — when the
field is absent this yields the one-element array `[undefined]`. -/
def normalizeMulti : FilesField → List (Option UploadedFile)
  | .missing => [none]
  | .single f => [some f]
  | .array fs => fs.map some

/-- The direct-image generation handler (the variant without any temp-file
cleanup).  Files passing `file && file.filepath && file.mimetype` are
read and attached as inline parts; then `generateContent` is invoked; a
throwing call is caught (500), unparseable text gets the dedicated 500,
parseable text the 200.  No `unlink` ever appears in its trace. -/
def directHandler (method : String) (ff : FilesField) (gen : GenOutcome) :
    GenResponse × List ExtCall :=
  if method != "POST" then (.methodNotAllowed, [])
  else
    let inputFiles := normalizeDirect ff
    if inputFiles.length == 0 then (.noFile, [])
    else
      let valid := inputFiles.filter (fun f => f.filepath != "" && f.mimetype != "")
      let reads := valid.map (fun f => ExtCall.readFile f.filepath)
      match gen with
      | .callError => (.providerError, reads ++ [.generate])
      | .returns none => (.invalidFormat, reads ++ [.generate])
      | .returns (some j) => (.success j, reads ++ [.generate])

/-- The multi-file generation handler (generar_examen.js with the finally
block).  The no-file 400 is answered before the try block; afterwards
every exit path runs the finally block, which unlinks each uploaded file
passing `file && file.filepath`.  A throwing call and unparseable model
output both land in the catch block (500). -/
def multiHandler (method : String) (ff : FilesField) (gen : GenOutcome) :
    GenResponse × List ExtCall :=
  if method == "OPTIONS" then (.optionsOk, [])
  else if method != "POST" then (.methodNotAllowed, [])
  else
    let uploadedFiles := normalizeMulti ff
    if uploadedFiles.length == 0 || uploadedFiles.headD none == none then
      (.noFile, [])
    else
      let valid := (uploadedFiles.filterMap id).filter (fun f => f.filepath != "")
      let reads := valid.map (fun f => ExtCall.readFile f.filepath)
      let unlinks := valid.map (fun f => ExtCall.unlink f.filepath)
      match gen with
      | .callError => (.providerError, reads ++ [.generate] ++ unlinks)
      | .returns none => (.providerError, reads ++ [.generate] ++ unlinks)
      | .returns (some j) => (.success j, reads ++ [.generate] ++ unlinks)

/-- The OCR generation handler (part with Cloud Vision).  The single file
is read, OCR runs on it; absent text or text shorter than 50 characters
answers the dedicated 500 without calling the generation provider; the
finally block unlinks `filePath` when it was set (and is truthy). -/
def ocrHandler (method : String) (file : Option UploadedFile)
    (ocr : OcrOutcome) (gen : GenOutcome) : GenResponse × List ExtCall :=
  if method != "POST" then (.methodNotAllowed, [])
  else
    match file with
    | none => (.noFile, [])
    | some f =>
      let pre := [ExtCall.readFile f.filepath, ExtCall.ocr f.filepath]
      let fin := if f.filepath != "" then [ExtCall.unlink f.filepath] else []
      match ocr with
      | .callError => (.providerError, pre ++ fin)
      | .extracted t =>
        if (t.getD "").length < 50 then (.ocrInsufficient, pre ++ fin)
        else
          match gen with
          | .callError => (.providerError, pre ++ [.generate] ++ fin)
          | .returns none => (.providerError, pre ++ [.generate] ++ fin)
          | .returns (some j) => (.success j, pre ++ [.generate] ++ fin)

/-! ### Helper lemmas -/

/-- The generated id is never the empty string: it starts with `R_`. -/
theorem generateUniqueId_ne_empty (digits : List Nat) :
    generateUniqueId digits ≠ "" := by
  intro h
  have hlen := congrArg String.length h
  rw [generateUniqueId, String.length_append] at hlen
  rw [show ("R_" : String).length = 2 from rfl,
    show ("" : String).length = 0 from rfl] at hlen
  omega

/-- Every base-36 digit below 36 renders, after `toUpperCase`, to a
character matching `[A-Z0-9]`. -/
theorem isUpperBase36_toUpper_base36Char :
    ∀ d : Nat, d < 36 → isUpperBase36 (base36Char d).toUpper := by
  decide

/-- C1 (counterexample): the save handler accepts a payload whose score is
the string "8" — `!"8"` is false, so it passes validation and is answered
201 with a share id — but the stored and returned document holds the
schema-cast number 8, not the input string: the four fields are not
returned verbatim for every accepted payload. -/
theorem c1_counterexample :
    (guardarHandler "POST"
        [("puntuacion", JSValue.str "8"),
         ("respuestas", JSValue.obj [("q1", JSValue.str "a")]),
         ("totalPreguntas", JSValue.num 10),
         ("examen", JSValue.arr [JSValue.str "q"])]
        true [10, 11, 12, 13, 14, 15] 7 []).1 = SaveResponse.created "R_ABCDEF"
    ∧ obtenerHandler "GET" (some "R_ABCDEF") true
        (guardarHandler "POST"
          [("puntuacion", JSValue.str "8"),
           ("respuestas", JSValue.obj [("q1", JSValue.str "a")]),
           ("totalPreguntas", JSValue.num 10),
           ("examen", JSValue.arr [JSValue.str "q"])]
          true [10, 11, 12, 13, 14, 15] 7 []).2 =
      GetResponse.found
        { uniqueId := "R_ABCDEF", timestamp := 7,
          puntuacion := JSValue.num 8,
          respuestas := JSValue.obj [("q1", JSValue.str "a")],
          totalPreguntas := JSValue.num 10,
          examen := JSValue.arr [JSValue.str "q"] }
    ∧ JSValue.num 8 ≠ JSValue.str "8" :=
  ⟨by decide, rfl, fun hh => JSValue.noConfusion hh⟩

/-- C1 (amended): round-trip of the Result Store for schema-typed
payloads.  Whenever the save handler accepts a payload whose score and
question count are numbers and whose exam is an array — so the schema
casts leave them unchanged — and answers 201 with a share id, looking
that id up with the get handler returns the full stored document: the
four payload fields verbatim, the generated `uniqueId` and the creation
timestamp.  (Cast-mutating accepted payloads, e.g. a numeric-string
score, round-trip to their cast values instead.) -/
theorem c1_roundtrip (body : List (String × JSValue)) (digits : List Nat)
    (now : Nat) (state : List Documento) (sid : String) (pn tn : Int)
    (l : List JSValue)
    (hp : getField body "puntuacion" = JSValue.num pn)
    (ht : getField body "totalPreguntas" = JSValue.num tn)
    (he : getField body "examen" = JSValue.arr l)
    (h : (guardarHandler "POST" body true digits now state).1 =
      SaveResponse.created sid) :
    obtenerHandler "GET" (some sid) true
        (guardarHandler "POST" body true digits now state).2 =
      GetResponse.found
        { uniqueId := sid, timestamp := now,
          puntuacion := getField body "puntuacion",
          respuestas := getField body "respuestas",
          totalPreguntas := getField body "totalPreguntas",
          examen := getField body "examen" } := by
  by_cases hval : (!(getField body "puntuacion").truthy
      || !(getField body "respuestas").truthy
      || !(getField body "totalPreguntas").truthy
      || !(getField body "examen").truthy) = true
  · exfalso
    unfold guardarHandler at h
    rw [if_neg (by decide), if_neg (by decide), if_pos hval] at h
    exact SaveResponse.noConfusion h
  · have hpair : guardarHandler "POST" body true digits now state =
        (if state.any (fun d => d.uniqueId == generateUniqueId digits) then
          (SaveResponse.serverError, state)
        else
          (SaveResponse.created (generateUniqueId digits),
            state ++ [⟨generateUniqueId digits, now,
              JSValue.num pn, getField body "respuestas",
              JSValue.num tn, JSValue.arr l⟩])) := by
      unfold guardarHandler
      rw [if_neg (by decide), if_neg (by decide), if_neg hval, hp, ht, he]
      rfl
    by_cases hdup :
        (state.any fun d => d.uniqueId == generateUniqueId digits) = true
    · exfalso
      rw [hpair, if_pos hdup] at h
      exact SaveResponse.noConfusion h
    · rw [hpair, if_neg hdup] at h
      obtain rfl : generateUniqueId digits = sid :=
        SaveResponse.created.inj h
      rw [hpair, if_neg hdup]
      unfold obtenerHandler
      rw [if_neg (by decide)]
      simp only [Option.getD_some]
      have hne : generateUniqueId digits ≠ "" := generateUniqueId_ne_empty digits
      rw [if_neg (by simpa using hne), if_neg (by decide)]
      have hall := List.any_eq_false.mp (eq_false_of_ne_true hdup)
      have hfind : List.find?
          (fun d => d.uniqueId == generateUniqueId digits) state = none :=
        List.find?_eq_none.mpr hall
      rw [List.find?_append, hfind, Option.none_or,
        List.find?_cons_of_pos _ (by simp)]
      rw [hp, ht, he]

/-- Witness for C1 (amended): a concrete save of the spec's example
payload — all fields already of the schema types — followed by the lookup
of the returned share id. -/
theorem c1_roundtrip_witness :
    (guardarHandler "POST"
        [("puntuacion", JSValue.num 8),
         ("respuestas", JSValue.obj [("q1", JSValue.str "a")]),
         ("totalPreguntas", JSValue.num 10),
         ("examen", JSValue.arr [JSValue.str "q"])]
        true [10, 11, 12, 13, 14, 15] 7 []).1 = SaveResponse.created "R_ABCDEF"
    ∧ obtenerHandler "GET" (some "R_ABCDEF") true
        (guardarHandler "POST"
          [("puntuacion", JSValue.num 8),
           ("respuestas", JSValue.obj [("q1", JSValue.str "a")]),
           ("totalPreguntas", JSValue.num 10),
           ("examen", JSValue.arr [JSValue.str "q"])]
          true [10, 11, 12, 13, 14, 15] 7 []).2 =
      GetResponse.found
        { uniqueId := "R_ABCDEF", timestamp := 7,
          puntuacion := JSValue.num 8,
          respuestas := JSValue.obj [("q1", JSValue.str "a")],
          totalPreguntas := JSValue.num 10,
          examen := JSValue.arr [JSValue.str "q"] } :=
  ⟨by decide, c1_roundtrip
    [("puntuacion", JSValue.num 8),
     ("respuestas", JSValue.obj [("q1", JSValue.str "a")]),
     ("totalPreguntas", JSValue.num 10),
     ("examen", JSValue.arr [JSValue.str "q"])]
    [10, 11, 12, 13, 14, 15] 7 [] "R_ABCDEF" 8 10 [JSValue.str "q"]
    rfl rfl rfl (by decide)⟩

/-- A concrete save body whose four fields are all present and non-null but
whose score is the number `0`, which is falsy in JavaScript. -/
def scoreZeroBody : List (String × JSValue) :=
  [("puntuacion", JSValue.num 0),
   ("respuestas", JSValue.obj [("q1", JSValue.str "a")]),
   ("totalPreguntas", JSValue.num 10),
   ("examen", JSValue.arr [JSValue.str "q"])]

/-- C2 (counterexample): a payload whose four fields are all present and
non-null — the score is the number `0` — is nevertheless rejected with the
400 missing-field error, because the handler tests JS truthiness
(`!puntuacion`), not presence: the claimed "if and only if absent or
null" fails. -/
theorem c2_counterexample :
    presentNonNull (getField scoreZeroBody "puntuacion")
    ∧ presentNonNull (getField scoreZeroBody "respuestas")
    ∧ presentNonNull (getField scoreZeroBody "totalPreguntas")
    ∧ presentNonNull (getField scoreZeroBody "examen")
    ∧ (guardarHandler "POST" scoreZeroBody true [10, 11, 12, 13, 14, 15] 0
        []).1 = SaveResponse.missingFields :=
  ⟨⟨fun hh => JSValue.noConfusion hh, fun hh => JSValue.noConfusion hh⟩,
   ⟨fun hh => JSValue.noConfusion hh, fun hh => JSValue.noConfusion hh⟩,
   ⟨fun hh => JSValue.noConfusion hh, fun hh => JSValue.noConfusion hh⟩,
   ⟨fun hh => JSValue.noConfusion hh, fun hh => JSValue.noConfusion hh⟩,
   rfl⟩

/-- Once the truthiness validation has passed, the save handler never
answers the 400 missing-field error: the remaining outcomes are the cast
failure 500, the duplicate-key 500 and the 201. -/
theorem guardar_pass_not_missing (body : List (String × JSValue))
    (digits : List Nat) (now : Nat) (state : List Documento)
    (hval : ¬(!(getField body "puntuacion").truthy
      || !(getField body "respuestas").truthy
      || !(getField body "totalPreguntas").truthy
      || !(getField body "examen").truthy) = true) :
    (guardarHandler "POST" body true digits now state).1 ≠
      SaveResponse.missingFields := by
  unfold guardarHandler
  rw [if_neg (by decide), if_neg (by decide), if_neg hval]
  split
  · split
    · exact fun hh => SaveResponse.noConfusion hh
    · exact fun hh => SaveResponse.noConfusion hh
  · exact fun hh => SaveResponse.noConfusion hh

/-- Case analysis of the save handler: either the collection is returned
unchanged, or the answer is the 201 with the generated id. -/
theorem guardar_state_cases (method : String) (body : List (String × JSValue))
    (connectOk : Bool) (digits : List Nat) (now : Nat)
    (state : List Documento) :
    (guardarHandler method body connectOk digits now state).2 = state
    ∨ (guardarHandler method body connectOk digits now state).1 =
        SaveResponse.created (generateUniqueId digits) := by
  unfold guardarHandler
  split
  · exact Or.inl rfl
  · split
    · exact Or.inl rfl
    · split
      · exact Or.inl rfl
      · split
        · split
          · exact Or.inl rfl
          · exact Or.inr rfl
        · exact Or.inl rfl

/-- C2 (amended): on a POST with a working connection, the save handler
answers the 400 missing-field error exactly when one of the four fields is
falsy in the JavaScript sense — absent, null, false, zero or the empty
string; every payload whose four fields are all truthy passes the
validation. -/
theorem c2_amended (body : List (String × JSValue)) (digits : List Nat)
    (now : Nat) (state : List Documento) :
    (guardarHandler "POST" body true digits now state).1 =
        SaveResponse.missingFields
      ↔ ¬((getField body "puntuacion").truthy = true
          ∧ (getField body "respuestas").truthy = true
          ∧ (getField body "totalPreguntas").truthy = true
          ∧ (getField body "examen").truthy = true) := by
  have hiff : (!(getField body "puntuacion").truthy
      || !(getField body "respuestas").truthy
      || !(getField body "totalPreguntas").truthy
      || !(getField body "examen").truthy) = true
      ↔ ¬((getField body "puntuacion").truthy = true
          ∧ (getField body "respuestas").truthy = true
          ∧ (getField body "totalPreguntas").truthy = true
          ∧ (getField body "examen").truthy = true) := by
    cases (getField body "puntuacion").truthy <;>
      cases (getField body "respuestas").truthy <;>
        cases (getField body "totalPreguntas").truthy <;>
          cases (getField body "examen").truthy <;> simp
  by_cases hval : (!(getField body "puntuacion").truthy
      || !(getField body "respuestas").truthy
      || !(getField body "totalPreguntas").truthy
      || !(getField body "examen").truthy) = true
  · refine iff_of_true ?_ (hiff.mp hval)
    unfold guardarHandler
    rw [if_neg (by decide), if_neg (by decide), if_pos hval]
  · have hcond := not_not.mp (fun hc => hval (hiff.mpr hc))
    refine iff_of_false ?_ (not_not_intro hcond)
    exact guardar_pass_not_missing body digits now state hval

/-- C9: whenever the save handler answers the 400 missing-field error, the
collection is unchanged — the rejected request inserted nothing. -/
theorem c9_validation_atomic (method : String) (body : List (String × JSValue))
    (connectOk : Bool) (digits : List Nat) (now : Nat)
    (state : List Documento)
    (h : (guardarHandler method body connectOk digits now state).1 =
      SaveResponse.missingFields) :
    (guardarHandler method body connectOk digits now state).2 = state := by
  rcases guardar_state_cases method body connectOk digits now state with hs | hc
  · exact hs
  · rw [h] at hc
    exact SaveResponse.noConfusion hc

/-- Witness for C9: the empty body is rejected with 400 and the (empty)
collection is left untouched. -/
theorem c9_validation_atomic_witness :
    (guardarHandler "POST" [] true [] 0 []).1 = SaveResponse.missingFields
    ∧ (guardarHandler "POST" [] true [] 0 []).2 = [] :=
  ⟨rfl, c9_validation_atomic "POST" [] true [] 0 [] rfl⟩

/-- C10: `connectToDatabase` is awaited before the body is validated, so
with a failing connection the save handler answers the 500 store error for
every body — in particular also for bodies missing required fields, whose
400 path is never reached. -/
theorem c10_connect_before_validation (body : List (String × JSValue))
    (digits : List Nat) (now : Nat) (state : List Documento) :
    (guardarHandler "POST" body false digits now state).1 =
      SaveResponse.serverError := rfl

/-- C3 (counterexample): `Math.random()` can return the double `0.5`, whose
base-36 fractional expansion is the single digit 18 (`(0.5).toString(36) =
"0.i"`).  The generator then produces `"R_I"` — the prefix followed by a
single character — so the claimed pattern `R_[A-Z0-9]{6}` does not hold of
every generated id. -/
theorem c3_counterexample :
    fracValue [18] = 1 / 2
    ∧ generateUniqueId [18] = "R_I"
    ∧ ¬ matchesIdPattern (generateUniqueId [18]) := by
  refine ⟨by norm_num [fracValue], by decide, by decide⟩

/-- C3 (amended): every generated id is the fixed `R_` followed by at most
six uppercase base-36 characters — and by exactly six whenever the random
double's base-36 expansion has at least six fractional digits, which is
the typical case but not a guaranteed one. -/
theorem c3_amended (digits : List Nat) (h : ∀ d ∈ digits, d < 36) :
    ∃ s : String, generateUniqueId digits = "R_" ++ s
      ∧ s.length ≤ 6
      ∧ (6 ≤ digits.length → s.length = 6)
      ∧ ∀ c ∈ s.toList, isUpperBase36 c := by
  refine ⟨jsToUpper (jsSubstring (toString36Frac digits) 2 8), rfl, ?_⟩
  cases digits with
  | nil =>
    refine ⟨by decide, by intro hh; simp at hh, ?_⟩
    intro c hc
    rw [show (jsToUpper (jsSubstring (toString36Frac []) 2 8)).toList = []
      from rfl] at hc
    exact absurd hc (List.not_mem_nil c)
  | cons d rest =>
    have hlist : (jsSubstring (toString36Frac (d :: rest)) 2 8).toList =
        ((d :: rest).map base36Char).take 6 := by
      show ((('0' :: '.' :: (d :: rest).map base36Char).drop 2).take 6) = _
      rfl
    have hup : (jsToUpper (jsSubstring (toString36Frac (d :: rest)) 2 8)).toList
        = (((d :: rest).map base36Char).take 6).map Char.toUpper := by
      show (jsSubstring (toString36Frac (d :: rest)) 2 8).toList.map Char.toUpper = _
      rw [hlist]
    have hlen : (jsToUpper (jsSubstring (toString36Frac (d :: rest)) 2 8)).length
        = min 6 (d :: rest).length := by
      show (jsToUpper (jsSubstring (toString36Frac (d :: rest)) 2 8)).toList.length = _
      rw [hup, List.length_map, List.length_take, List.length_map]
    refine ⟨?_, ?_, ?_⟩
    · rw [hlen]; exact min_le_left _ _
    · intro hh; rw [hlen]; omega
    · intro c hc
      rw [hup] at hc
      obtain ⟨a, ha, rfl⟩ := List.mem_map.mp hc
      have ha2 := List.mem_of_mem_take ha
      obtain ⟨dd, hdd, rfl⟩ := List.mem_map.mp ha2
      exact isUpperBase36_toUpper_base36Char dd (h dd hdd)

/-- Witness for C3 (amended): the expansion `[10, 11, 12, 13, 14, 15]`
(six digits, all below 36) produces `R_ABCDEF`. -/
theorem c3_amended_witness :
    ∃ s : String, generateUniqueId [10, 11, 12, 13, 14, 15] = "R_" ++ s
      ∧ s.length ≤ 6
      ∧ (6 ≤ ([10, 11, 12, 13, 14, 15] : List Nat).length → s.length = 6)
      ∧ ∀ c ∈ s.toList, isUpperBase36 c :=
  c3_amended [10, 11, 12, 13, 14, 15] (by decide)

/-- C7: lookup semantics of the get handler.  For a present (truthy) share
id: a database failure is caught and answered as a 500 response — never
rethrown to the caller; with a working connection, when no stored document
matches the id the handler answers the 404 not-found response, and when a
document matches it returns that full document. -/
theorem c7_find_by_id (shareId : String) (connectOk : Bool)
    (state : List Documento) (hsid : shareId ≠ "") :
    (connectOk = false →
      obtenerHandler "GET" (some shareId) connectOk state =
        GetResponse.serverError)
    ∧ (connectOk = true →
      (state.find? (fun d => d.uniqueId == shareId) = none →
        obtenerHandler "GET" (some shareId) connectOk state =
          GetResponse.notFound)
      ∧ ∀ d, state.find? (fun d => d.uniqueId == shareId) = some d →
        obtenerHandler "GET" (some shareId) connectOk state =
          GetResponse.found d) := by
  unfold obtenerHandler
  rw [if_neg (by decide)]
  simp only [Option.getD_some]
  rw [if_neg (by simpa using hsid)]
  constructor
  · rintro rfl
    rw [if_pos (by decide)]
  · rintro rfl
    rw [if_neg (by decide)]
    constructor
    · intro hf; rw [hf]
    · intro d hf; rw [hf]

/-- Witness for C7: a lookup for an id absent from the empty collection
answers not-found. -/
theorem c7_find_by_id_witness :
    obtenerHandler "GET" (some "R_NOPE01") true [] = GetResponse.notFound :=
  ((c7_find_by_id "R_NOPE01" true [] (by decide)).2 rfl).1 rfl

/-- With a nonzero `readyState` a `connectToDatabase` call changes nothing
and makes no connection attempt. -/
theorem connectToDatabase_noop (rs : Nat) (o : Bool) (h : rs ≠ 0) :
    connectToDatabase rs o = (rs, false) := by
  unfold connectToDatabase
  rw [if_pos (by simpa using h)]

/-- Once connected (nonzero `readyState`), a sequence of further calls
establishes no connection at all. -/
theorem connectionsEstablished_eq_zero (rs : Nat) (h : rs ≠ 0)
    (l : List Bool) : connectionsEstablished rs l = 0 := by
  induction l with
  | nil => rfl
  | cons o rest ih =>
    show (if (connectToDatabase rs o).2 && o then 1 else 0) +
      connectionsEstablished (connectToDatabase rs o).1 rest = 0
    rw [connectToDatabase_noop rs o h]
    simpa using ih

/-- Any sequence of `connectToDatabase` calls establishes at most one
connection, whatever the starting state and connect outcomes. -/
theorem connectionsEstablished_le_one (rs : Nat) (l : List Bool) :
    connectionsEstablished rs l ≤ 1 := by
  induction l generalizing rs with
  | nil => exact Nat.zero_le 1
  | cons o rest ih =>
    by_cases h : rs = 0
    · subst h
      cases o with
      | false =>
        show (if (connectToDatabase 0 false).2 && false then 1 else 0) +
          connectionsEstablished (connectToDatabase 0 false).1 rest ≤ 1
        simpa using ih (connectToDatabase 0 false).1
      | true =>
        show (if (connectToDatabase 0 true).2 && true then 1 else 0) +
          connectionsEstablished (connectToDatabase 0 true).1 rest ≤ 1
        have hz := connectionsEstablished_eq_zero 1 (by decide) rest
        simp [connectToDatabase, hz]
    · have hz := connectionsEstablished_eq_zero rs h (o :: rest)
      omega

/-- C8: `connectToDatabase` is idempotent — with a live connection
(nonzero `readyState`) a call is a no-op making no new connection attempt —
and consequently every sequence of handler invocations in one process
establishes at most one connection. -/
theorem c8_connection_idempotent (readyState : Nat) (o : Bool)
    (h : readyState ≠ 0) :
    connectToDatabase readyState o = (readyState, false)
    ∧ ∀ (rs : Nat) (outcomes : List Bool),
      connectionsEstablished rs outcomes ≤ 1 :=
  ⟨connectToDatabase_noop readyState o h,
   fun rs outcomes => connectionsEstablished_le_one rs outcomes⟩

/-- Witness for C8: a call on an established connection is a no-op, and a
process seeing three invocations establishes at most one connection. -/
theorem c8_connection_idempotent_witness :
    connectToDatabase 1 true = (1, false)
    ∧ connectionsEstablished 0 [true, true, false] ≤ 1 :=
  ⟨(c8_connection_idempotent 1 true (by decide)).1,
   (c8_connection_idempotent 1 true (by decide)).2 0 [true, true, false]⟩

/-- C5: a request with no uploaded material is answered with the 400
no-material error by each of the three generation handlers, and with an
empty effect trace — neither the generation provider nor the OCR provider
is ever invoked. -/
theorem c5_no_material (ff : FilesField) (gen : GenOutcome)
    (ocr : OcrOutcome)
    (h : ff = FilesField.missing ∨ ff = FilesField.array []) :
    (directHandler "POST" ff gen).1.status = 400
    ∧ (directHandler "POST" ff gen).2 = []
    ∧ (multiHandler "POST" ff gen).1.status = 400
    ∧ (multiHandler "POST" ff gen).2 = []
    ∧ (ocrHandler "POST" none ocr gen).1.status = 400
    ∧ (ocrHandler "POST" none ocr gen).2 = [] := by
  rcases h with rfl | rfl <;>
    exact ⟨rfl, rfl, rfl, rfl, rfl, rfl⟩

/-- Witness for C5: the absent-files request is rejected by all three
handlers without any external call. -/
theorem c5_no_material_witness :
    (directHandler "POST" FilesField.missing GenOutcome.callError).1.status =
      400
    ∧ (directHandler "POST" FilesField.missing GenOutcome.callError).2 = []
    ∧ (multiHandler "POST" FilesField.missing GenOutcome.callError).1.status =
      400
    ∧ (multiHandler "POST" FilesField.missing GenOutcome.callError).2 = []
    ∧ (ocrHandler "POST" none OcrOutcome.callError
        GenOutcome.callError).1.status = 400
    ∧ (ocrHandler "POST" none OcrOutcome.callError GenOutcome.callError).2 =
      [] :=
  c5_no_material FilesField.missing GenOutcome.callError OcrOutcome.callError
    (Or.inl rfl)

/-- C6: in the OCR-then-text handler, extracted text of fewer than 50
characters (including absent text, where `fullTextAnnotation?.text` is
undefined) is answered with the insufficient-text error and the generation
provider is not called; text of 50 characters or more proceeds to the
generation call. -/
theorem c6_ocr_threshold (f : UploadedFile) (t : Option String)
    (gen : GenOutcome) :
    ((t.getD "").length < 50 →
      (ocrHandler "POST" (some f) (OcrOutcome.extracted t) gen).1 =
        GenResponse.ocrInsufficient
      ∧ ExtCall.generate ∉
        (ocrHandler "POST" (some f) (OcrOutcome.extracted t) gen).2)
    ∧ (50 ≤ (t.getD "").length →
      ExtCall.generate ∈
        (ocrHandler "POST" (some f) (OcrOutcome.extracted t) gen).2) := by
  have hred : ocrHandler "POST" (some f) (OcrOutcome.extracted t) gen =
      (if (t.getD "").length < 50 then
        (GenResponse.ocrInsufficient,
          [ExtCall.readFile f.filepath, ExtCall.ocr f.filepath] ++
            (if f.filepath != "" then [ExtCall.unlink f.filepath] else []))
      else
        match gen with
        | .callError => (GenResponse.providerError,
            [ExtCall.readFile f.filepath, ExtCall.ocr f.filepath] ++
              [ExtCall.generate] ++
              (if f.filepath != "" then [ExtCall.unlink f.filepath] else []))
        | .returns none => (GenResponse.providerError,
            [ExtCall.readFile f.filepath, ExtCall.ocr f.filepath] ++
              [ExtCall.generate] ++
              (if f.filepath != "" then [ExtCall.unlink f.filepath] else []))
        | .returns (some j) => (GenResponse.success j,
            [ExtCall.readFile f.filepath, ExtCall.ocr f.filepath] ++
              [ExtCall.generate] ++
              (if f.filepath != "" then [ExtCall.unlink f.filepath] else []))) :=
    rfl
  constructor
  · intro hlt
    rw [hred, if_pos hlt]
    refine ⟨rfl, ?_⟩
    intro hmem
    rcases List.mem_append.mp hmem with hmem | hmem
    · simp at hmem
    · by_cases hfp : (f.filepath != "") = true
      · rw [if_pos hfp] at hmem
        simp at hmem
      · rw [if_neg hfp] at hmem
        exact absurd hmem (List.not_mem_nil _)
  · intro hge
    rw [hred, if_neg (by omega)]
    cases gen with
    | callError => simp
    | returns p =>
      cases p with
      | none => simp
      | some j => simp

/-- Witness for C6: text of 49 characters is rejected without a generation
call; text of 50 characters reaches the generation call. -/
theorem c6_ocr_threshold_witness :
    ((ocrHandler "POST" (some ⟨"/tmp/doc1", "image/png"⟩)
        (OcrOutcome.extracted (some (String.mk (List.replicate 49 'a'))))
        GenOutcome.callError).1 = GenResponse.ocrInsufficient
      ∧ ExtCall.generate ∉
        (ocrHandler "POST" (some ⟨"/tmp/doc1", "image/png"⟩)
          (OcrOutcome.extracted (some (String.mk (List.replicate 49 'a'))))
          GenOutcome.callError).2)
    ∧ ExtCall.generate ∈
      (ocrHandler "POST" (some ⟨"/tmp/doc1", "image/png"⟩)
        (OcrOutcome.extracted (some (String.mk (List.replicate 50 'a'))))
        GenOutcome.callError).2 :=
  ⟨(c6_ocr_threshold ⟨"/tmp/doc1", "image/png"⟩
      (some (String.mk (List.replicate 49 'a'))) GenOutcome.callError).1
    (by simp [String.length]),
   (c6_ocr_threshold ⟨"/tmp/doc1", "image/png"⟩
      (some (String.mk (List.replicate 50 'a'))) GenOutcome.callError).2
    (by simp [String.length])⟩

/-- C4 (counterexample): a successful run of the direct-image generation
handler on one uploaded file reads the temp file and never deletes it —
its effect trace contains the read but no `unlink` — so the claim that
every exam-generation handler deletes each temp file on every exit path
fails. -/
theorem c4_counterexample :
    (directHandler "POST" (FilesField.array [⟨"/tmp/upload1", "image/png"⟩])
        (GenOutcome.returns (some (JSValue.obj [])))).1.status = 200
    ∧ (directHandler "POST" (FilesField.array [⟨"/tmp/upload1", "image/png"⟩])
        (GenOutcome.returns (some (JSValue.obj [])))).2 =
      [ExtCall.readFile "/tmp/upload1", ExtCall.generate]
    ∧ ExtCall.unlink "/tmp/upload1" ∉
      (directHandler "POST" (FilesField.array [⟨"/tmp/upload1", "image/png"⟩])
        (GenOutcome.returns (some (JSValue.obj [])))).2 :=
  ⟨rfl, rfl, by decide⟩

/-- The uploaded files of the multi-file handler that pass the
`file && file.filepath` guard of its read loop and finally block. -/
def multiValid (ff : FilesField) : List UploadedFile :=
  ((normalizeMulti ff).filterMap id).filter (fun f => f.filepath != "")

/-- When some uploaded file passes the guard, the multi-file handler's
no-file check is false. -/
theorem multi_not_empty (ff : FilesField) (f : UploadedFile)
    (hf : f ∈ multiValid ff) :
    ¬((normalizeMulti ff).length == 0
      || (normalizeMulti ff).headD none == none) = true := by
  cases ff with
  | missing => simp [multiValid, normalizeMulti] at hf
  | single x => intro hc; exact Bool.noConfusion hc
  | array fs =>
    cases fs with
    | nil => simp [multiValid, normalizeMulti] at hf
    | cons y ys => intro hc; exact Bool.noConfusion hc

/-- Trace of the multi-file handler on a request passing the no-file
check: the reads, the generation call, then — on every exit path of the
try block — the unlinks of the finally block. -/
theorem multiHandler_trace (ff : FilesField) (gen : GenOutcome)
    (h : ¬((normalizeMulti ff).length == 0
      || (normalizeMulti ff).headD none == none) = true) :
    (multiHandler "POST" ff gen).2 =
      (multiValid ff).map (fun f => ExtCall.readFile f.filepath) ++
        [ExtCall.generate] ++
        (multiValid ff).map (fun f => ExtCall.unlink f.filepath) := by
  unfold multiHandler
  rw [if_neg (by decide), if_neg (by decide), if_neg h]
  cases gen with
  | callError => rfl
  | returns o => cases o with
    | none => rfl
    | some j => rfl

/-- The trace shape shared by all post-parse exits of the multi-file
handler deletes each guarded file exactly once, provided the temp paths
are pairwise distinct (as formidable guarantees). -/
theorem count_unlink_trace (l : List UploadedFile) (f : UploadedFile)
    (hnodup : (l.map (fun x => x.filepath)).Nodup) (hf : f ∈ l) :
    (l.map (fun x => ExtCall.readFile x.filepath) ++ [ExtCall.generate] ++
      l.map (fun x => ExtCall.unlink x.filepath)).count
        (ExtCall.unlink f.filepath) = 1 := by
  rw [List.count_append, List.count_append]
  have h1 : (l.map (fun x => ExtCall.readFile x.filepath)).count
      (ExtCall.unlink f.filepath) = 0 := by
    rw [List.count_eq_zero]
    intro hmem
    obtain ⟨x, _, hxx⟩ := List.mem_map.mp hmem
    exact ExtCall.noConfusion hxx
  have h2 : ([ExtCall.generate] : List ExtCall).count
      (ExtCall.unlink f.filepath) = 0 := by
    rw [List.count_eq_zero]
    intro hmem
    simp at hmem
  have h3 : (l.map (fun x => ExtCall.unlink x.filepath)).count
      (ExtCall.unlink f.filepath) = 1 := by
    have hmm : l.map (fun x => ExtCall.unlink x.filepath) =
        (l.map (fun x => x.filepath)).map ExtCall.unlink := by
      rw [List.map_map]
      rfl
    rw [hmm, List.count_map_of_injective _ ExtCall.unlink
      (fun a b hab => ExtCall.unlink.inj hab)]
    exact List.count_eq_one_of_mem hnodup
      (List.mem_map_of_mem (fun x => x.filepath) hf)
  rw [h1, h2, h3]

/-- The direct-image handler's trace is either empty or the reads followed
by the generation call: in particular it never contains an unlink. -/
theorem directHandler_trace (ff : FilesField) (gen : GenOutcome) :
    (directHandler "POST" ff gen).2 = []
    ∨ (directHandler "POST" ff gen).2 =
      ((normalizeDirect ff).filter
          (fun f => f.filepath != "" && f.mimetype != "")).map
        (fun f => ExtCall.readFile f.filepath) ++ [ExtCall.generate] := by
  unfold directHandler
  rw [if_neg (by decide)]
  by_cases hlen : ((normalizeDirect ff).length == 0) = true
  · rw [if_pos hlen]
    exact Or.inl rfl
  · rw [if_neg hlen]
    cases gen with
    | callError => exact Or.inr rfl
    | returns o => cases o with
      | none => exact Or.inr rfl
      | some j => exact Or.inr rfl

/-- C4 (amended): the multi-file handler and the OCR handler delete each
guarded temp file exactly once on every exit path after form parsing
(success, provider error, or unparseable model output), assuming pairwise
distinct temp paths; the direct-image handler, by contrast, never deletes
any temp file on any path. -/
theorem c4_cleanup (ff : FilesField) (gen : GenOutcome) (f g : UploadedFile)
    (ocr : OcrOutcome)
    (hnodup : ((multiValid ff).map (fun x => x.filepath)).Nodup)
    (hf : f ∈ multiValid ff)
    (hg : g.filepath ≠ "") :
    (multiHandler "POST" ff gen).2.count (ExtCall.unlink f.filepath) = 1
    ∧ (ocrHandler "POST" (some g) ocr gen).2.count
        (ExtCall.unlink g.filepath) = 1
    ∧ ∀ p, ExtCall.unlink p ∉ (directHandler "POST" ff gen).2 := by
  refine ⟨?_, ?_, ?_⟩
  · rw [multiHandler_trace ff gen (multi_not_empty ff f hf)]
    exact count_unlink_trace (multiValid ff) f hnodup hf
  · have hfin : (if (g.filepath != "") = true
        then [ExtCall.unlink g.filepath] else []) =
        [ExtCall.unlink g.filepath] := if_pos (by simpa using hg)
    cases ocr with
    | callError =>
      show ([ExtCall.readFile g.filepath, ExtCall.ocr g.filepath] ++
        (if (g.filepath != "") = true then [ExtCall.unlink g.filepath]
          else [])).count (ExtCall.unlink g.filepath) = 1
      rw [hfin]
      simp [List.count_cons, List.count_append]
    | extracted t =>
      by_cases hlt : (t.getD "").length < 50
      · show ((if (t.getD "").length < 50 then
            (GenResponse.ocrInsufficient,
              [ExtCall.readFile g.filepath, ExtCall.ocr g.filepath] ++
                (if (g.filepath != "") = true
                  then [ExtCall.unlink g.filepath] else []))
          else _).2.count (ExtCall.unlink g.filepath)) = 1
        rw [if_pos hlt, hfin]
        simp [List.count_cons, List.count_append]
      · cases gen with
        | callError =>
          show ((if (t.getD "").length < 50 then _ else
            (GenResponse.providerError,
              [ExtCall.readFile g.filepath, ExtCall.ocr g.filepath] ++
                [ExtCall.generate] ++
                (if (g.filepath != "") = true
                  then [ExtCall.unlink g.filepath] else []))).2.count
              (ExtCall.unlink g.filepath)) = 1
          rw [if_neg hlt, hfin]
          simp [List.count_cons, List.count_append]
        | returns o => cases o with
          | none =>
            show ((if (t.getD "").length < 50 then _ else
              (GenResponse.providerError,
                [ExtCall.readFile g.filepath, ExtCall.ocr g.filepath] ++
                  [ExtCall.generate] ++
                  (if (g.filepath != "") = true
                    then [ExtCall.unlink g.filepath] else []))).2.count
                (ExtCall.unlink g.filepath)) = 1
            rw [if_neg hlt, hfin]
            simp [List.count_cons, List.count_append]
          | some j =>
            show ((if (t.getD "").length < 50 then _ else
              (GenResponse.success j,
                [ExtCall.readFile g.filepath, ExtCall.ocr g.filepath] ++
                  [ExtCall.generate] ++
                  (if (g.filepath != "") = true
                    then [ExtCall.unlink g.filepath] else []))).2.count
                (ExtCall.unlink g.filepath)) = 1
            rw [if_neg hlt, hfin]
            simp [List.count_cons, List.count_append]
  · intro p hmem
    rcases directHandler_trace ff gen with he | he
    · rw [he] at hmem
      exact absurd hmem (List.not_mem_nil _)
    · rw [he] at hmem
      rcases List.mem_append.mp hmem with hm | hm
      · obtain ⟨x, _, hxx⟩ := List.mem_map.mp hm
        exact ExtCall.noConfusion hxx
      · simp at hm

/-- Witness for C4 (amended): one uploaded file in each variant — the
multi-file and OCR handlers unlink it exactly once, the direct-image
handler does not unlink it. -/
theorem c4_cleanup_witness :
    (multiHandler "POST" (FilesField.array [⟨"/tmp/a", "image/png"⟩])
        GenOutcome.callError).2.count (ExtCall.unlink "/tmp/a") = 1
    ∧ (ocrHandler "POST" (some ⟨"/tmp/b", "image/png"⟩) OcrOutcome.callError
        GenOutcome.callError).2.count (ExtCall.unlink "/tmp/b") = 1
    ∧ ExtCall.unlink "/tmp/a" ∉ (directHandler "POST"
        (FilesField.array [⟨"/tmp/a", "image/png"⟩])
        GenOutcome.callError).2 :=
  ⟨(c4_cleanup (FilesField.array [⟨"/tmp/a", "image/png"⟩])
      GenOutcome.callError ⟨"/tmp/a", "image/png"⟩ ⟨"/tmp/b", "image/png"⟩
      OcrOutcome.callError (by decide) (by decide) (by decide)).1,
   (c4_cleanup (FilesField.array [⟨"/tmp/a", "image/png"⟩])
      GenOutcome.callError ⟨"/tmp/a", "image/png"⟩ ⟨"/tmp/b", "image/png"⟩
      OcrOutcome.callError (by decide) (by decide) (by decide)).2.1,
   (c4_cleanup (FilesField.array [⟨"/tmp/a", "image/png"⟩])
      GenOutcome.callError ⟨"/tmp/a", "image/png"⟩ ⟨"/tmp/b", "image/png"⟩
      OcrOutcome.callError (by decide) (by decide) (by decide)).2.2 "/tmp/a"⟩
